import Mathlib

/-!
Shallow embedding of the training orchestrator in trainer/trainer.py
(class Trainer) together with the collaborators its observable behaviour
depends on.  Tensors are flat lists of scalar values with an explicit
shape; scalar values are rationals extended with NaN and signed
infinities so that the non-finiteness checks of the source can be
stated.  Fallible Python code (exceptions) is embedded with Except, and
the model's train/eval mode is threaded explicitly.
-/

namespace EmbedderSDR

/-- Scalar element of a floating-point tensor: a finite value (modelled
as a rational), NaN, or a signed infinity. -/
inductive Val where
  | num (q : ℚ)
  | nan
  | inf
  | neginf
deriving DecidableEq, Repr

/-- torch.isnan on a single element. -/
def Val.isnan : Val → Bool
  | .nan => true
  | _ => false

/-- torch.isfinite on a single element. -/
def Val.isfinite : Val → Bool
  | .num _ => true
  | _ => false

/-- IEEE-style addition of two scalar elements. -/
def Val.add : Val → Val → Val
  | .nan, _ => .nan
  | _, .nan => .nan
  | .inf, .neginf => .nan
  | .neginf, .inf => .nan
  | .inf, _ => .inf
  | _, .inf => .inf
  | .neginf, _ => .neginf
  | _, .neginf => .neginf
  | .num a, .num b => .num (a + b)

/-- IEEE-style multiplication of a scalar element by a finite rational
coefficient (used for noise_ampl * images.grad). -/
def Val.smul (q : ℚ) : Val → Val
  | .nan => .nan
  | .num a => .num (q * a)
  | .inf => if 0 < q then .inf else if q < 0 then .neginf else .nan
  | .neginf => if 0 < q then .neginf else if q < 0 then .inf else .nan

/-- One tensor: an explicit shape and the flat element list. -/
structure Tensor where
  shape : List Nat
  data : List Val
deriving DecidableEq, Repr

/-- Elementwise in-place addition (images += adv_noise); the result
keeps the left operand's shape. -/
def tensorAdd (a b : Tensor) : Tensor :=
  { shape := a.shape, data := List.zipWith Val.add a.data b.data }

/-- Scalar multiplication of a tensor. -/
def tensorSmul (q : ℚ) (t : Tensor) : Tensor :=
  { shape := t.shape, data := t.data.map (Val.smul q) }

/-- torch.isnan(t).any(): does the tensor contain a NaN element? -/
def Tensor.hasNan (t : Tensor) : Bool :=
  t.data.any Val.isnan

/-- A batch as delivered by the training loader: a list of per-sample
image tensors and the parallel list of labels. -/
abbrev Batch := List Tensor × List Val

/-- Elementwise addition of two batches of image tensors. -/
def batchAdd (a b : List Tensor) : List Tensor :=
  List.zipWith tensorAdd a b

/-- Scalar multiplication applied to every image of a batch. -/
def batchSmul (q : ℚ) (b : List Tensor) : List Tensor :=
  b.map (tensorSmul q)

/-- The model's train/eval mode flag (module.training in torch). -/
inductive Mode where
  | train
  | eval
deriving DecidableEq, Repr

/-- The observable state of the model: its mode flag and its named
parameters. -/
structure ModelState where
  mode : Mode
  params : List (String × Tensor)
deriving DecidableEq, Repr

/-- Modelled from the spec: utils.prepare.prepare_eval (not under src/)
captures the model's current train/eval mode and forces evaluation
mode, returning the saved mode for a later scoped restore. -/
def prepare_eval (m : ModelState) : Mode × ModelState :=
  (m.mode, { m with mode := Mode.eval })

/-- Modelled from the spec: the handle returned by prepare_eval; its
restore method puts the model back into the captured mode. -/
def modeRestore (saved : Mode) (m : ModelState) : ModelState :=
  { m with mode := saved }

/-- The result record of Trainer.get_adversarial_examples
(utils.domain.AdversarialExamples). -/
structure AdversarialExamples where
  original : List Tensor
  adversarial : List Tensor
  labels : List Val
deriving DecidableEq, Repr

/-- The adversarial perturbation loop of Trainer.get_adversarial_examples
(trainer.py lines 148-155): n_iter times, compute the input gradient of
the loss (abstracted as grad, which may fail the way loss.backward can)
and add noise_ampl * gradient to the working images. -/
def adv_loop (model : ModelState)
    (grad : ModelState → List Val → List Tensor → Except String (List Tensor))
    (labels : List Val) (noise_ampl : ℚ) :
    Nat → List Tensor → Except String (List Tensor)
  | 0, images => Except.ok images
  | n + 1, images =>
    match grad model labels images with
    | Except.error e => Except.error e
    | Except.ok g => adv_loop model grad labels noise_ampl n (batchAdd images (batchSmul noise_ampl g))

/-- Trainer.get_adversarial_examples (trainer.py lines 135-158): draw one
batch from the training loader, clone the originals, switch the model to
evaluation mode, run the perturbation loop, restore the mode and package
the result.  The first component of the result is the model state at
exit; an Except.error is a Python exception propagating to the caller. -/
def get_adversarial_examples (model : ModelState)
    (train_loader : List Batch)
    (grad : ModelState → List Val → List Tensor → Except String (List Tensor))
    (noise_ampl : ℚ) (n_iter : Nat) :
    ModelState × Except String AdversarialExamples :=
  match train_loader.head? with
  | none => (model, Except.error "StopIteration")
  | some (images, labels) =>
    let images_orig := images
    let saved := prepare_eval model
    match adv_loop saved.2 grad labels noise_ampl n_iter images with
    | Except.error e => (saved.2, Except.error e)
    | Except.ok images_adv =>
      (modeRestore saved.1 saved.2,
       Except.ok { original := images_orig, adversarial := images_adv, labels := labels })

/-- Maximum of a list of rationals (proba.max(dim=1) for one row). -/
def listMax (l : List ℚ) : ℚ :=
  l.foldl max (l.headD 0)

/-- Index of the (first) largest element (tensor.argmax on a vector). -/
def argmaxIdx (l : List ℚ) : Nat :=
  (List.range l.length).foldl
    (fun best i => if l.getD best 0 < l.getD i 0 then i else best) 0

/-- Trainer.train_mask (trainer.py lines 117-133): draw one batch,
switch the model to evaluation mode, predict class probabilities
(forward is the model's forward pass composed with
accuracy_measure.predict_proba and may fail), pick the sample with the
largest maximal class probability, delegate mask learning/plotting
(plot_mask, which may fail), restore the mode and return the chosen
(image, label) pair.  The first component of the result is the model
state at exit. -/
def train_mask {α : Type} (model : ModelState)
    (train_loader : List Batch)
    (forward : ModelState → List Tensor → Except String α)
    (predict_proba : α → List (List ℚ))
    (plot_mask : ModelState → Tensor → Val → Except String Unit) :
    ModelState × Except String (Tensor × Val) :=
  match train_loader.head? with
  | none => (model, Except.error "StopIteration")
  | some (images, labels) =>
    let saved := prepare_eval model
    match forward saved.2 images with
    | Except.error e => (saved.2, Except.error e)
    | Except.ok out =>
      let proba_max := (predict_proba out).map listMax
      let sample_max_proba := argmaxIdx proba_max
      match images[sample_max_proba]?, labels[sample_max_proba]? with
      | some image, some label =>
        match plot_mask saved.2 image label with
        | Except.error e => (saved.2, Except.error e)
        | Except.ok _ => (modeRestore saved.1 saved.2, Except.ok (image, label))
      | _, _ => (saved.2, Except.error "IndexError")

/-- Modelled from the spec: monitor.var_online.MeanOnline (not under
src/), a numerically stable online mean with O(1) state. -/
structure MeanOnline where
  count : Nat
  mean : ℚ
deriving DecidableEq, Repr

/-- Modelled from the spec: MeanOnline.update incorporates one
observation into the running mean. -/
def MeanOnline.update (m : MeanOnline) (v : ℚ) : MeanOnline :=
  { count := m.count + 1, mean := m.mean + (v - m.mean) / (m.count + 1) }

/-- The per-parameter NaN scan of Trainer.train_epoch (trainer.py lines
182-184): for every named parameter whose tensor contains a NaN element,
emit the warning message naming it. -/
def nan_warnings (params : List (String × Tensor)) : List String :=
  (params.filter (fun p => Tensor.hasNan p.2)).map
    (fun p => "NaN parameters in " ++ p.1)

/-- The model states left by train_batch after each successive batch of
an epoch (the states the NaN scan of train_epoch inspects). -/
def batch_states {α : Type}
    (train_batch : ModelState → Batch → ModelState × α × ℚ) :
    ModelState → List Batch → List ModelState
  | _, [] => []
  | model, b :: rest =>
    let step := train_batch model b
    step.1 :: batch_states train_batch step.1 rest

/-- Trainer.train_epoch (trainer.py lines 165-197): iterate the training
loader, run train_batch on each batch, accumulate the detached loss into
a MeanOnline, and after every batch scan all named parameters for NaN
values, emitting a non-fatal warning per offending parameter.  Returns
the final model state, the emitted warnings in order, and the loss
accumulator. -/
def train_epoch {α : Type}
    (train_batch : ModelState → Batch → ModelState × α × ℚ) :
    ModelState × List String × MeanOnline → List Batch →
    ModelState × List String × MeanOnline
  | st, [] => st
  | (model, warns, acc), b :: rest =>
    let step := train_batch model b
    let model := step.1
    let loss := step.2.2
    train_epoch train_batch
      (model, warns ++ nan_warnings model.params, acc.update loss) rest

/-- The epoch counter of the process-wide batch timer. -/
structure TimerState where
  epoch : Nat
deriving DecidableEq, Repr

/-- Modelled from the spec: the EpochTimer (monitor/batch_timer.py, not
under src/) advances the epoch counter by exactly one per completed
epoch; one call of train_epoch completes one epoch. -/
def train_epoch_tick (t : TimerState) : TimerState :=
  { epoch := t.epoch + 1 }

/-- Python integer modulo on naturals: raises ZeroDivisionError when the
divisor is zero. -/
def pymod (a b : Nat) : Except String Nat :=
  if b = 0 then Except.error "ZeroDivisionError" else Except.ok (a % b)

/-- Observable actions performed by the epoch loop of Trainer.train. -/
inductive Event where
  | train_epoch_run (epoch : Nat)
  | full_forward_pass (epoch : Nat)
  | accuracy_save (epoch : Nat)
  | epoch_finished (epoch : Nat)
  | plot_adversarial (epoch : Nat)
  | plot_mask_hook (epoch : Nat)
  | update_loss_full_train (epoch : Nat)
  | checkpoint_save (epoch : Nat)
deriving DecidableEq, Repr

/-- The actions of one evaluation epoch in Trainer.train (trainer.py
lines 234-241): full forward pass, accuracy-strategy calibration, the
epoch_finished monitor event, the optional adversarial and mask hooks,
and _epoch_finished (full-train loss update followed by the checkpoint
write). -/
def eval_epoch_events (adversarial mask_explain : Bool) (epoch : Nat) : List Event :=
  [Event.full_forward_pass epoch, Event.accuracy_save epoch, Event.epoch_finished epoch] ++
  (if adversarial then [Event.plot_adversarial epoch] else []) ++
  (if mask_explain then [Event.plot_mask_hook epoch] else []) ++
  [Event.update_loss_full_train epoch, Event.checkpoint_save epoch]

/-- The epoch loop of Trainer.train (trainer.py lines 231-241) over an
explicit list of epoch indices: run train_epoch (advancing the timer),
then, when epoch mod epoch_update_step == 0, perform the
evaluation-epoch actions.  Returns the final timer state and either the
ordered event trace or the propagating exception. -/
def train_loop (adversarial mask_explain : Bool) (epoch_update_step : Nat) :
    TimerState → List Nat → TimerState × Except String (List Event)
  | t, [] => (t, Except.ok [])
  | t, epoch :: rest =>
    let t1 := train_epoch_tick t
    match pymod epoch epoch_update_step with
    | Except.error e => (t1, Except.error e)
    | Except.ok r =>
      let evs := if r = 0 then eval_epoch_events adversarial mask_explain epoch else []
      match train_loop adversarial mask_explain epoch_update_step t1 rest with
      | (t2, Except.error e) => (t2, Except.error e)
      | (t2, Except.ok evs2) =>
        (t2, Except.ok (Event.train_epoch_run epoch :: (evs ++ evs2)))

/-- Trainer.train (trainer.py line 231): the iterated epoch range is
range(timer.epoch, timer.epoch + n_epoch), fixed before the loop
starts. -/
def train (adversarial mask_explain : Bool) (t : TimerState)
    (n_epoch epoch_update_step : Nat) :
    TimerState × Except String (List Event) :=
  train_loop adversarial mask_explain epoch_update_step t
    (List.range' t.epoch n_epoch)

/-- The persisted checkpoint triple of Trainer.state_dict (trainer.py
lines 79-84). -/
structure Checkpoint where
  model_state : List (String × Tensor)
  epoch : Nat
  env_name : String
deriving DecidableEq, Repr

/-- The in-memory trainer state the checkpoint operations touch. -/
structure TrainerState where
  model : ModelState
  epoch : Nat
  env_name : String
  checkpoint_dir : String
  monitor_env : Option String
deriving DecidableEq, Repr

/-- Trainer.checkpoint_path (trainer.py lines 57-59): the checkpoint
file path derived from the run identifier. -/
def checkpoint_path (st : TrainerState) : String :=
  st.checkpoint_dir ++ "/" ++ st.env_name ++ ".pt"

/-- Trainer.state_dict (trainer.py lines 79-84). -/
def state_dict (st : TrainerState) : Checkpoint :=
  { model_state := st.model.params, epoch := st.epoch, env_name := st.env_name }

/-- Outcome of one filesystem operation. -/
inductive FsResult where
  | ok
  | permission_error (msg : String)
deriving DecidableEq, Repr

/-- Trainer.save (trainer.py lines 72-77): mkdir(parents, exist_ok) on
the checkpoint directory runs outside the try block; torch.save runs
inside a try that catches PermissionError and prints it.  The result is
the list of printed error messages, or the exception propagating to the
caller. -/
def save (st : TrainerState) (mkdir_result : FsResult)
    (torch_save : Checkpoint → FsResult) : Except String (List String) :=
  match mkdir_result with
  | FsResult.permission_error e => Except.error e
  | FsResult.ok =>
    match torch_save (state_dict st) with
    | FsResult.permission_error e => Except.ok [e]
    | FsResult.ok => Except.ok []

/-- Lookup of a named parameter in a state dict. -/
def lookupParam (ps : List (String × Tensor)) (name : String) : Option Tensor :=
  (ps.find? (fun p => p.1 == name)).map Prod.snd

/-- The condition under which a strict load succeeds: every model
parameter is present in the incoming state dict with an equal shape, and
the incoming dict has no unexpected keys. -/
def strict_load_ok (current incoming : List (String × Tensor)) : Bool :=
  (current.all (fun p =>
    match lookupParam incoming p.1 with
    | some t => t.shape == p.2.shape
    | none => false)) &&
  (incoming.all (fun p => (lookupParam current p.1).isSome))

/-- Modelled from the spec: torch nn.Module.load_state_dict (external
to the repository).  Under strict=True a missing/unexpected key or a
parameter-shape mismatch raises a RuntimeError and the restore aborts
without mutating the model; under strict=False the matching subset of
parameters is loaded best-effort. -/
def load_state_dict (current incoming : List (String × Tensor)) (strict : Bool) :
    Except String (List (String × Tensor)) :=
  if strict then
    if strict_load_ok current incoming then
      Except.ok (current.map (fun p => (p.1, (lookupParam incoming p.1).getD p.2)))
    else Except.error "RuntimeError: size mismatch"
  else
    Except.ok (current.map (fun p =>
      match lookupParam incoming p.1 with
      | some t => if t.shape == p.2.shape then (p.1, t) else p
      | none => p))

/-- Trainer.restore (trainer.py lines 86-109): resolve the path (the
run's own derived path when none is given), return None when the file
does not exist, otherwise load the state dict into the model (a
RuntimeError is caught, reported, and makes restore return None without
further effect); on success overwrite the run identifier and epoch
counter from the checkpoint and reopen the monitor stream.  The
filesystem is abstracted as a map from paths to checkpoint contents. -/
def restore (st : TrainerState) (fs : String → Option Checkpoint)
    (path : Option String) (strict : Bool) :
    TrainerState × Option Checkpoint :=
  let p := path.getD (checkpoint_path st)
  match fs p with
  | none => (st, none)
  | some ckpt =>
    match load_state_dict st.model.params ckpt.model_state strict with
    | Except.error _ => (st, none)
    | Except.ok params2 =>
      ({ st with
          model := { st.model with params := params2 },
          epoch := ckpt.epoch,
          env_name := ckpt.env_name,
          monitor_env := some ckpt.env_name }, some ckpt)

/-- Duck-typed category of the loss function: isinstance(criterion,
PairLoss) or not (trainer.py line 44). -/
inductive CriterionKind where
  | pair_loss
  | other
deriving DecidableEq, Repr

/-- An accuracy-measurement strategy: the two auto-selectable kinds and
arbitrary caller-supplied ones. -/
inductive AccuracyKind where
  | embedding
  | argmax
  | custom (id : Nat)
deriving DecidableEq, Repr

/-- The part of the constructed trainer the construction claims
observe. -/
structure TrainerInit where
  accuracy_measure : AccuracyKind
  mask_image_shape : List Nat
  batches_in_epoch : Nat
deriving DecidableEq, Repr

/-- The accuracy-strategy selection of Trainer.__init__ (trainer.py
lines 43-49): a supplied measure is kept; otherwise a PairLoss
criterion selects AccuracyEmbedding and any other criterion selects
AccuracyArgmax. -/
def select_accuracy (criterion : CriterionKind)
    (accuracy_measure : Option AccuracyKind) : AccuracyKind :=
  match accuracy_measure with
  | some a => a
  | none =>
    match criterion with
    | CriterionKind.pair_loss => AccuracyKind.embedding
    | CriterionKind.other => AccuracyKind.argmax

/-- Trainer.__init__ (trainer.py lines 28-55): when no accuracy measure
is supplied, select by loss category (PairLoss yields the embedding
strategy, anything else the argmax strategy); then draw one batch from
the training loader (next on a fresh iterator, raising StopIteration on
an empty loader) and seed the mask trainer with the first sample image's
shape (raising IndexError on an empty batch). -/
def trainer_init (criterion : CriterionKind)
    (accuracy_measure : Option AccuracyKind)
    (train_loader : List Batch) : Except String TrainerInit :=
  let acc := select_accuracy criterion accuracy_measure
  match train_loader.head? with
  | none => Except.error "StopIteration"
  | some (images, _labels) =>
    match images.head? with
    | none => Except.error "IndexError"
    | some img0 =>
      Except.ok { accuracy_measure := acc,
                  mask_image_shape := img0.shape,
                  batches_in_epoch := train_loader.length }

/-! Concrete sample values used by witnesses. -/

/-- A one-element sample image tensor. -/
def sampleImage : Tensor :=
  { shape := [1], data := [Val.num 0] }

/-- A sample model in training mode. -/
def sampleModel : ModelState :=
  { mode := Mode.train, params := [] }

/-- A sample trainer state. -/
def sampleState : TrainerState :=
  { model := { mode := Mode.train,
               params := [("w", { shape := [2], data := [Val.num 1, Val.num 2] })] },
    epoch := 3,
    env_name := "run",
    checkpoint_dir := "checkpoints",
    monitor_env := none }

/-- Characterisation of the accuracy strategy chosen by a successful
Trainer.__init__. -/
theorem trainer_init_accuracy (criterion : CriterionKind)
    (acc : Option AccuracyKind) (loader : List Batch) (init : TrainerInit)
    (h : trainer_init criterion acc loader = Except.ok init) :
    init.accuracy_measure = select_accuracy criterion acc := by
  rcases loader with _ | ⟨⟨images, labels⟩, rest⟩
  · simp [trainer_init] at h
  · rcases images with _ | ⟨img0, imgs⟩
    · simp [trainer_init] at h
    · simp [trainer_init] at h
      rw [← h]

/-- Claim C5: calling restore when the checkpoint file (default or
explicit path) does not exist returns None without raising and leaves
the whole trainer state — model parameters, epoch counter, run
identifier — unchanged. -/
theorem C5_restore_missing_noop (st : TrainerState)
    (fs : String → Option Checkpoint) (path : Option String) (strict : Bool)
    (h : fs (path.getD (checkpoint_path st)) = none) :
    restore st fs path strict = (st, none) := by
  unfold restore
  simp [h]

/-- Witness for C5 at a concrete state with an empty filesystem. -/
theorem C5_restore_missing_noop_witness :
    restore sampleState (fun _ => none) none true = (sampleState, none) :=
  C5_restore_missing_noop sampleState (fun _ => none) none true rfl

/-- Claim C6: restore with strict=True on an existing checkpoint whose
parameters do not match the model aborts without raising: it returns
None and leaves the trainer state — model parameters, epoch counter,
run identifier — entirely unchanged. -/
theorem C6_restore_strict_mismatch (st : TrainerState)
    (fs : String → Option Checkpoint) (path : Option String) (ckpt : Checkpoint)
    (hfs : fs (path.getD (checkpoint_path st)) = some ckpt)
    (hmm : strict_load_ok st.model.params ckpt.model_state = false) :
    restore st fs path true = (st, none) := by
  unfold restore load_state_dict
  simp [hfs, hmm]

/-- A checkpoint whose single parameter has a shape mismatching
sampleState's model. -/
def mismatchCkpt : Checkpoint :=
  { model_state := [("w", { shape := [3], data := [Val.num 0, Val.num 0, Val.num 0] })],
    epoch := 7,
    env_name := "old run",
    }

/-- Witness for C6 at a concrete state and mismatching checkpoint. -/
theorem C6_restore_strict_mismatch_witness :
    restore sampleState (fun _ => some mismatchCkpt) none true = (sampleState, none) :=
  C6_restore_strict_mismatch sampleState (fun _ => some mismatchCkpt) none
    mismatchCkpt rfl (by decide)

/-- Counterexample to claim C7: a permission failure while ensuring the
checkpoint directory exists (mkdir runs outside the try block) is not
caught — save raises it to the caller. -/
theorem C7_counterexample :
    save sampleState (FsResult.permission_error "PermissionError: mkdir")
      (fun _ => FsResult.ok)
      = Except.error "PermissionError: mkdir" := rfl

/-- Claim C7 as amended: a permission failure raised while serializing
the checkpoint (torch.save) is caught and reported without raising, and
the caller's run continues; a successful write also returns normally. -/
theorem C7_save_permission_caught (st : TrainerState) (e : String) :
    save st FsResult.ok (fun _ => FsResult.permission_error e) = Except.ok [e] ∧
    save st FsResult.ok (fun _ => FsResult.ok) = Except.ok [] :=
  ⟨rfl, rfl⟩

/-- Claim C9: with no explicit accuracy strategy, an embedding-style
(PairLoss) loss selects the embedding-distance strategy and every other
loss selects the argmax strategy; a supplied strategy is used as
given. -/
theorem C9_accuracy_auto_selection (criterion : CriterionKind)
    (loader : List Batch) (init : TrainerInit) :
    (trainer_init CriterionKind.pair_loss none loader = Except.ok init →
      init.accuracy_measure = AccuracyKind.embedding) ∧
    (trainer_init CriterionKind.other none loader = Except.ok init →
      init.accuracy_measure = AccuracyKind.argmax) ∧
    (∀ a, trainer_init criterion (some a) loader = Except.ok init →
      init.accuracy_measure = a) :=
  ⟨fun h => trainer_init_accuracy _ _ _ _ h,
   fun h => trainer_init_accuracy _ _ _ _ h,
   fun _ h => trainer_init_accuracy _ _ _ _ h⟩

/-- Witness for C9 at a concrete loader. -/
theorem C9_accuracy_auto_selection_witness :
    ({ accuracy_measure := AccuracyKind.embedding, mask_image_shape := [1],
       batches_in_epoch := 1 } : TrainerInit).accuracy_measure = AccuracyKind.embedding ∧
    ({ accuracy_measure := AccuracyKind.argmax, mask_image_shape := [1],
       batches_in_epoch := 1 } : TrainerInit).accuracy_measure = AccuracyKind.argmax ∧
    ({ accuracy_measure := AccuracyKind.custom 5, mask_image_shape := [1],
       batches_in_epoch := 1 } : TrainerInit).accuracy_measure = AccuracyKind.custom 5 :=
  ⟨(C9_accuracy_auto_selection CriterionKind.pair_loss
      [([sampleImage], [Val.num 0])] _).1 rfl,
   (C9_accuracy_auto_selection CriterionKind.other
      [([sampleImage], [Val.num 0])] _).2.1 rfl,
   (C9_accuracy_auto_selection CriterionKind.other
      [([sampleImage], [Val.num 0])] _).2.2 (AccuracyKind.custom 5) rfl⟩

/-- Claim C10: constructing a Trainer consumes one batch from the
training loader to seed the mask trainer with a sample image's shape;
on an empty loader, construction fails with an uncaught StopIteration
instead of producing a trainer. -/
theorem C10_init_consumes_batch (criterion : CriterionKind)
    (acc : Option AccuracyKind) :
    trainer_init criterion acc [] = Except.error "StopIteration" ∧
    (∀ images labels rest init,
      trainer_init criterion acc ((images, labels) :: rest) = Except.ok init →
      ∃ img0, images.head? = some img0 ∧ init.mask_image_shape = img0.shape) := by
  constructor
  · rfl
  · intro images labels rest init h
    rcases images with _ | ⟨img0, imgs⟩
    · simp [trainer_init] at h
    · refine ⟨img0, rfl, ?_⟩
      simp [trainer_init] at h
      rw [← h]

/-- Witness for C10: the empty loader fails and a singleton loader seeds
the mask shape from its first image. -/
theorem C10_init_consumes_batch_witness :
    trainer_init CriterionKind.other none [] = Except.error "StopIteration" ∧
    (∃ img0, [sampleImage].head? = some img0 ∧
      ({ accuracy_measure := AccuracyKind.argmax, mask_image_shape := [1],
         batches_in_epoch := 1 } : TrainerInit).mask_image_shape = img0.shape) :=
  ⟨(C10_init_consumes_batch CriterionKind.other none).1,
   (C10_init_consumes_batch CriterionKind.other none).2
     [sampleImage] [Val.num 0] [] _ rfl⟩

/-- Counterexample to claim C2: the scoped mode switch is not
exception-safe.  On a model observed in training mode before the call,
train_mask whose delegated forward pass raises exits with the model
still in evaluation mode — the prior mode is not restored on the error
path. -/
theorem C2_counterexample :
    (train_mask sampleModel [([sampleImage], [Val.num 0])]
        (fun _ _ => (Except.error "RuntimeError" : Except String Unit))
        (fun _ => [])
        (fun _ _ _ => Except.ok ())).1.mode = Mode.eval ∧
    sampleModel.mode = Mode.train :=
  ⟨rfl, rfl⟩

/-- Claim C2 as amended: in train_mask and get_adversarial_examples the
model's prior train/eval mode is restored on every normal
(exception-free) exit; when the delegated computation raises, the
exception propagates with the model left in evaluation mode. -/
theorem C2_mode_restored_on_success {α : Type} (model : ModelState)
    (train_loader : List Batch)
    (forward : ModelState → List Tensor → Except String α)
    (predict_proba : α → List (List ℚ))
    (plot_mask : ModelState → Tensor → Val → Except String Unit)
    (grad : ModelState → List Val → List Tensor → Except String (List Tensor))
    (noise_ampl : ℚ) (n_iter : Nat) :
    (∀ res,
      (train_mask model train_loader forward predict_proba plot_mask).2 = Except.ok res →
      (train_mask model train_loader forward predict_proba plot_mask).1.mode = model.mode) ∧
    (∀ res,
      (get_adversarial_examples model train_loader grad noise_ampl n_iter).2 = Except.ok res →
      (get_adversarial_examples model train_loader grad noise_ampl n_iter).1.mode = model.mode) := by
  constructor
  · intro res hres
    unfold train_mask at hres ⊢
    split at hres
    · simp at hres
    · dsimp only at hres ⊢
      split at hres
      · simp at hres
      · split at hres
        · split at hres
          · simp at hres
          · rfl
        · simp at hres
  · intro res hres
    unfold get_adversarial_examples at hres ⊢
    split at hres
    · simp at hres
    · dsimp only at hres ⊢
      split at hres
      · simp at hres
      · rfl

/-- Witness for the amended C2 at concrete successful calls. -/
theorem C2_mode_restored_on_success_witness :
    (train_mask sampleModel [([sampleImage], [Val.num 0])]
        (fun _ _ => (Except.ok () : Except String Unit))
        (fun _ => [[1]])
        (fun _ _ _ => Except.ok ())).1.mode = sampleModel.mode ∧
    (get_adversarial_examples sampleModel [([sampleImage], [Val.num 0])]
        (fun _ _ images => Except.ok images) 1 0).1.mode = sampleModel.mode :=
  ⟨(C2_mode_restored_on_success sampleModel [([sampleImage], [Val.num 0])]
      (fun _ _ => (Except.ok () : Except String Unit)) (fun _ => [[1]])
      (fun _ _ _ => Except.ok ())
      (fun _ _ images => Except.ok images) 1 0).1
      (sampleImage, Val.num 0) rfl,
   (C2_mode_restored_on_success sampleModel [([sampleImage], [Val.num 0])]
      (fun _ _ => (Except.ok () : Except String Unit)) (fun _ => [[1]])
      (fun _ _ _ => Except.ok ())
      (fun _ _ images => Except.ok images) 1 0).2
      { original := [sampleImage], adversarial := [sampleImage],
        labels := [Val.num 0] } rfl⟩

/-- Per-image shapes of a batch after elementwise addition: the left
operand's shapes, provided the right operand has as many images. -/
theorem batchAdd_map_shape (a b : List Tensor) (h : b.length = a.length) :
    (batchAdd a b).map Tensor.shape = a.map Tensor.shape := by
  induction a generalizing b with
  | nil => simp [batchAdd]
  | cons x xs ih =>
    cases b with
    | nil => simp at h
    | cons y ys =>
      simp only [List.length_cons] at h
      simp only [batchAdd, List.zipWith_cons_cons, List.map_cons, List.cons.injEq]
      exact ⟨rfl, ih ys (by omega)⟩

/-- Per-image element counts of a batch after elementwise addition are
preserved when the right operand matches them. -/
theorem batchAdd_map_dataLen (a b : List Tensor)
    (h : b.map (fun t => t.data.length) = a.map (fun t => t.data.length)) :
    (batchAdd a b).map (fun t => t.data.length) = a.map (fun t => t.data.length) := by
  induction a generalizing b with
  | nil => simp [batchAdd]
  | cons x xs ih =>
    cases b with
    | nil => simp at h
    | cons y ys =>
      simp only [List.map_cons, List.cons.injEq] at h
      simp only [batchAdd, List.zipWith_cons_cons, List.map_cons, List.cons.injEq]
      constructor
      · simp [tensorAdd, h.1]
      · exact ih ys h.2

/-- Scalar multiplication preserves the per-image shapes of a batch. -/
theorem batchSmul_map_shape (q : ℚ) (b : List Tensor) :
    (batchSmul q b).map Tensor.shape = b.map Tensor.shape := by
  simp [batchSmul, tensorSmul]

/-- Scalar multiplication preserves the per-image element counts of a
batch. -/
theorem batchSmul_map_dataLen (q : ℚ) (b : List Tensor) :
    (batchSmul q b).map (fun t => t.data.length) = b.map (fun t => t.data.length) := by
  simp [batchSmul, tensorSmul]

/-- The adversarial perturbation loop preserves the per-image shapes and
element counts of the working batch whenever the input gradient has the
shape of its tensor (the autograd contract). -/
theorem adv_loop_preserves (model : ModelState)
    (grad : ModelState → List Val → List Tensor → Except String (List Tensor))
    (labels : List Val) (q : ℚ)
    (hgrad : ∀ m l t g, grad m l t = Except.ok g →
      g.map Tensor.shape = t.map Tensor.shape ∧
      g.map (fun x => x.data.length) = t.map (fun x => x.data.length)) :
    ∀ (n : Nat) (images images2 : List Tensor),
      adv_loop model grad labels q n images = Except.ok images2 →
      images2.map Tensor.shape = images.map Tensor.shape ∧
      images2.map (fun x => x.data.length) = images.map (fun x => x.data.length) := by
  intro n
  induction n with
  | zero =>
    intro images images2 h
    simp only [adv_loop, Except.ok.injEq] at h
    rw [← h]
    exact ⟨rfl, rfl⟩
  | succ n ih =>
    intro images images2 h
    simp only [adv_loop] at h
    cases hg : grad model labels images with
    | error e => rw [hg] at h; simp at h
    | ok g =>
      rw [hg] at h
      obtain ⟨hs, hd⟩ := hgrad _ _ _ _ hg
      have hlen : (batchSmul q g).length = images.length := by
        have := congrArg List.length (batchSmul_map_shape q g)
        have := congrArg List.length hs
        simp only [List.length_map] at *
        omega
      have hstep := ih _ _ h
      constructor
      · rw [hstep.1, batchAdd_map_shape _ _ hlen]
      · rw [hstep.2, batchAdd_map_dataLen]
        rw [batchSmul_map_dataLen, hd]

/-- Claim C1: for every call of get_adversarial_examples with
noise_ampl ≥ 0 and n_iter ≥ 0 that returns, the adversarial batch has
the same shape (per-image shapes and element counts) as the original
batch, the returned original batch is exactly the batch drawn from the
loader before any perturbation, the returned labels are the labels
drawn with that batch, and with n_iter = 0 the adversarial batch equals
the original batch.  The gradient is only assumed to satisfy the
autograd contract that an input gradient has its input's shape. -/
theorem C1_adversarial_invariants (model : ModelState)
    (images : List Tensor) (labels : List Val) (rest : List Batch)
    (grad : ModelState → List Val → List Tensor → Except String (List Tensor))
    (noise_ampl : ℚ) (n_iter : Nat)
    (_hq : 0 ≤ noise_ampl)
    (hgrad : ∀ m l t g, grad m l t = Except.ok g →
      g.map Tensor.shape = t.map Tensor.shape ∧
      g.map (fun x => x.data.length) = t.map (fun x => x.data.length))
    (res : AdversarialExamples)
    (hret : (get_adversarial_examples model ((images, labels) :: rest)
        grad noise_ampl n_iter).2 = Except.ok res) :
    res.adversarial.map Tensor.shape = res.original.map Tensor.shape ∧
    res.adversarial.map (fun x => x.data.length)
      = res.original.map (fun x => x.data.length) ∧
    res.original = images ∧
    res.labels = labels ∧
    (n_iter = 0 → res.adversarial = res.original) := by
  unfold get_adversarial_examples at hret
  simp only [List.head?] at hret
  cases hl : adv_loop (prepare_eval model).2 grad labels noise_ampl n_iter images with
  | error e => rw [hl] at hret; simp at hret
  | ok images_adv =>
    rw [hl] at hret
    simp only [Except.ok.injEq] at hret
    rw [← hret]
    obtain ⟨hs, hd⟩ := adv_loop_preserves _ _ _ _ hgrad _ _ _ hl
    refine ⟨hs, hd, rfl, rfl, ?_⟩
    intro h0
    subst h0
    simp only [adv_loop, Except.ok.injEq] at hl
    exact hl.symm

/-- Witness for C1 at a concrete call with one perturbation iteration
and the identity input gradient. -/
theorem C1_adversarial_invariants_witness :
    (0 : ℚ) ≤ 1 ∧
    (([sampleImage] : List Tensor).map Tensor.shape = [sampleImage].map Tensor.shape ∧
     ([sampleImage] : List Tensor).map (fun x => x.data.length)
       = [sampleImage].map (fun x => x.data.length) ∧
     ([sampleImage] : List Tensor) = [sampleImage] ∧
     ([Val.num 0] : List Val) = [Val.num 0] ∧
     ((0 : Nat) = 0 → ([sampleImage] : List Tensor) = [sampleImage])) :=
  ⟨by norm_num,
   C1_adversarial_invariants sampleModel [sampleImage] [Val.num 0] []
     (fun _ _ images => Except.ok images) 1 0 (by norm_num)
     (fun _ _ _ _ h => by cases h; exact ⟨rfl, rfl⟩)
     { original := [sampleImage], adversarial := [sampleImage], labels := [Val.num 0] }
     rfl⟩

/-- A successful run of the epoch loop advances the timer's epoch
counter by exactly the number of iterated epochs. -/
theorem train_loop_epoch_count (adv mask : Bool) (m : Nat) :
    ∀ (es : List Nat) (t : TimerState) (tr : List Event),
      (train_loop adv mask m t es).2 = Except.ok tr →
      (train_loop adv mask m t es).1.epoch = t.epoch + es.length := by
  intro es
  induction es with
  | nil =>
    intro t tr _
    simp [train_loop]
  | cons e rest ih =>
    intro t tr h
    simp only [train_loop] at h ⊢
    cases hm : pymod e m with
    | error err => rw [hm] at h; simp at h
    | ok r =>
      rw [hm] at h
      cases hrec : train_loop adv mask m (train_epoch_tick t) rest with
      | mk t2 res2 =>
        rw [hrec] at h
        cases res2 with
        | error e2 => simp at h
        | ok evs2 =>
          have h2 := ih (train_epoch_tick t) evs2 (by rw [hrec])
          rw [hrec] at h2
          show t2.epoch = t.epoch + (e :: rest).length
          simp only [train_epoch_tick] at h2
          simp only [List.length_cons]
          omega

/-- Claim C8: after a completed call of train with n_epoch = k the epoch
counter equals its pre-call value plus k, for every epoch_update_step
(the timer advance per completed epoch is modelled from the spec). -/
theorem C8_epoch_counter (adv mask : Bool) (t : TimerState) (n m : Nat)
    (tr : List Event)
    (hok : (train adv mask t n m).2 = Except.ok tr) :
    (train adv mask t n m).1.epoch = t.epoch + n := by
  have h := train_loop_epoch_count adv mask m (List.range' t.epoch n) t tr hok
  simpa [train, List.length_range'] using h

/-- The event trace of a concrete completed run: two epochs starting at
epoch 0 with evaluation every epoch. -/
def c8trace : List Event :=
  ((train false false { epoch := 0 } 2 1).2).toOption.getD []

/-- Witness for C8 at that concrete run. -/
theorem C8_epoch_counter_witness :
    (train false false { epoch := 0 } 2 1).1.epoch = 0 + 2 :=
  C8_epoch_counter false false { epoch := 0 } 2 1 c8trace rfl

/-- Membership of the four per-evaluation-epoch actions in the action
list of one evaluation epoch. -/
theorem mem_eval_epoch_events (adv mask : Bool) (e ep : Nat) :
    (Event.full_forward_pass e ∈ eval_epoch_events adv mask ep ↔ e = ep) ∧
    (Event.accuracy_save e ∈ eval_epoch_events adv mask ep ↔ e = ep) ∧
    (Event.epoch_finished e ∈ eval_epoch_events adv mask ep ↔ e = ep) ∧
    (Event.checkpoint_save e ∈ eval_epoch_events adv mask ep ↔ e = ep) := by
  cases adv <;> cases mask <;> simp [eval_epoch_events]

/-- For any event selector that appears exactly on its own evaluation
epoch and is never the train_epoch_run marker, membership in a
successful epoch-loop trace is equivalent to the epoch being iterated
and lying on the evaluation cadence. -/
theorem train_loop_mem (adv mask : Bool) (m : Nat) (mk : Nat → Event)
    (hmem : ∀ e ep, (mk e ∈ eval_epoch_events adv mask ep) ↔ e = ep)
    (hrun : ∀ e ep, mk e ≠ Event.train_epoch_run ep) (e : Nat) :
    ∀ (es : List Nat) (t : TimerState) (tr : List Event),
      (train_loop adv mask m t es).2 = Except.ok tr →
      (mk e ∈ tr ↔ e ∈ es ∧ e % m = 0) := by
  intro es
  induction es with
  | nil =>
    intro t tr h
    simp only [train_loop, Except.ok.injEq] at h
    rw [← h]
    simp
  | cons e1 rest ih =>
    intro t tr h
    simp only [train_loop] at h
    cases hm : pymod e1 m with
    | error err => rw [hm] at h; simp at h
    | ok r =>
      rw [hm] at h
      have hmne : m ≠ 0 := by
        intro h0
        rw [h0] at hm
        simp [pymod] at hm
      have hr : r = e1 % m := by
        simp only [pymod, if_neg hmne, Except.ok.injEq] at hm
        exact hm.symm
      subst hr
      cases hrec : train_loop adv mask m (train_epoch_tick t) rest with
      | mk t2 res2 =>
        rw [hrec] at h
        cases res2 with
        | error e2 => simp at h
        | ok evs2 =>
          have hih := ih (train_epoch_tick t) evs2 (by rw [hrec])
          simp only [Except.ok.injEq] at h
          subst h
          by_cases hc : e1 % m = 0
          · rw [if_pos hc]
            simp only [List.mem_cons, List.mem_append, hmem e e1, hih]
            constructor
            · rintro (habs | he | hrest)
              · exact absurd habs (hrun e e1)
              · exact ⟨Or.inl he, he ▸ hc⟩
              · exact ⟨Or.inr hrest.1, hrest.2⟩
            · rintro ⟨he | hrest, hmod⟩
              · exact Or.inr (Or.inl he)
              · exact Or.inr (Or.inr ⟨hrest, hmod⟩)
          · rw [if_neg hc]
            simp only [List.nil_append, List.mem_cons, hih]
            constructor
            · rintro (habs | hrest)
              · exact absurd habs (hrun e e1)
              · exact ⟨Or.inr hrest.1, hrest.2⟩
            · rintro ⟨he | hrest, hmod⟩
              · exact absurd (he ▸ hmod) hc
              · exact Or.inr ⟨hrest, hmod⟩

/-- Claim C3: for epoch_update_step = m ≥ 1, over a completed call of
train the full-dataset evaluation pass, the accuracy-strategy
calibration, the epoch-finished event, and the checkpoint write each
happen exactly on the iterated epochs whose index satisfies
epoch mod m = 0, and on no other epoch. -/
theorem C3_evaluation_cadence (adv mask : Bool) (e0 n m : Nat)
    (_hm : 1 ≤ m) (tr : List Event)
    (hok : (train adv mask { epoch := e0 } n m).2 = Except.ok tr) (e : Nat) :
    (Event.full_forward_pass e ∈ tr ↔ e ∈ List.range' e0 n ∧ e % m = 0) ∧
    (Event.accuracy_save e ∈ tr ↔ e ∈ List.range' e0 n ∧ e % m = 0) ∧
    (Event.epoch_finished e ∈ tr ↔ e ∈ List.range' e0 n ∧ e % m = 0) ∧
    (Event.checkpoint_save e ∈ tr ↔ e ∈ List.range' e0 n ∧ e % m = 0) := by
  have hok2 : (train_loop adv mask m { epoch := e0 }
      (List.range' e0 n)).2 = Except.ok tr := hok
  refine ⟨?_, ?_, ?_, ?_⟩
  · exact train_loop_mem adv mask m Event.full_forward_pass
      (fun a b => (mem_eval_epoch_events adv mask a b).1)
      (fun a b => by simp) e (List.range' e0 n) { epoch := e0 } tr hok2
  · exact train_loop_mem adv mask m Event.accuracy_save
      (fun a b => (mem_eval_epoch_events adv mask a b).2.1)
      (fun a b => by simp) e (List.range' e0 n) { epoch := e0 } tr hok2
  · exact train_loop_mem adv mask m Event.epoch_finished
      (fun a b => (mem_eval_epoch_events adv mask a b).2.2.1)
      (fun a b => by simp) e (List.range' e0 n) { epoch := e0 } tr hok2
  · exact train_loop_mem adv mask m Event.checkpoint_save
      (fun a b => (mem_eval_epoch_events adv mask a b).2.2.2)
      (fun a b => by simp) e (List.range' e0 n) { epoch := e0 } tr hok2

/-- The event trace of a concrete completed run: three epochs starting
at epoch 0 with evaluation every second epoch. -/
def c3trace : List Event :=
  ((train false false { epoch := 0 } 3 2).2).toOption.getD []

/-- Witness for C3 at that concrete run and epoch 2. -/
theorem C3_evaluation_cadence_witness :
    (Event.full_forward_pass 2 ∈ c3trace ↔ 2 ∈ List.range' 0 3 ∧ 2 % 2 = 0) ∧
    (Event.accuracy_save 2 ∈ c3trace ↔ 2 ∈ List.range' 0 3 ∧ 2 % 2 = 0) ∧
    (Event.epoch_finished 2 ∈ c3trace ↔ 2 ∈ List.range' 0 3 ∧ 2 % 2 = 0) ∧
    (Event.checkpoint_save 2 ∈ c3trace ↔ 2 ∈ List.range' 0 3 ∧ 2 % 2 = 0) :=
  C3_evaluation_cadence false false 0 3 2 (by decide) c3trace rfl 2

/-- A train_batch stub that leaves one parameter holding a positive
infinity — non-finite, but not NaN. -/
def c4_inf_step : ModelState → Batch → ModelState × Unit × ℚ :=
  fun m _ => ({ m with params := [("w", { shape := [1], data := [Val.inf] })] }, (), 0)

/-- Counterexample to claim C4: the per-batch scan uses torch.isnan, so
a parameter holding an infinity — a non-finite value that is not NaN —
produces no warning at all: after the batch the parameter "w" is
non-finite yet the emitted warning list is empty. -/
theorem C4_counterexample :
    (train_epoch c4_inf_step (sampleModel, [], { count := 0, mean := 0 })
        [([sampleImage], [Val.num 0])]).2.1 = [] ∧
    ((train_epoch c4_inf_step (sampleModel, [], { count := 0, mean := 0 })
        [([sampleImage], [Val.num 0])]).1.params.any
        (fun p => p.2.data.any (fun v => ! v.isfinite))) = true :=
  ⟨rfl, rfl⟩

/-- A NaN-holding named parameter yields its warning message in the
per-batch scan. -/
theorem mem_nan_warnings (params : List (String × Tensor)) (name : String)
    (t : Tensor) (hp : (name, t) ∈ params) (hn : t.hasNan = true) :
    ("NaN parameters in " ++ name) ∈ nan_warnings params := by
  simp only [nan_warnings, List.mem_map]
  exact ⟨(name, t), List.mem_filter.2 ⟨hp, hn⟩, rfl⟩

/-- Warnings already accumulated are preserved by the rest of the epoch
loop. -/
theorem train_epoch_warns_mono {α : Type}
    (step : ModelState → Batch → ModelState × α × ℚ) :
    ∀ (loader : List Batch) (model : ModelState) (warns : List String)
      (acc : MeanOnline) (w : String),
      w ∈ warns → w ∈ (train_epoch step (model, warns, acc) loader).2.1 := by
  intro loader
  induction loader with
  | nil =>
    intro model warns acc w hw
    exact hw
  | cons b rest ih =>
    intro model warns acc w hw
    show w ∈ (train_epoch step ((step model b).1,
      warns ++ nan_warnings (step model b).1.params,
      acc.update (step model b).2.2) rest).2.1
    exact ih _ _ _ w (List.mem_append.2 (Or.inl hw))

/-- Claim C4 as amended: after every batch of train_epoch, every named
model parameter containing a NaN value causes a warning naming that
parameter to appear in the emitted warning list, and train_epoch (a
total function here) still returns normally.  Non-finite values that
are not NaN are outside the scan. -/
theorem C4_nan_warning {α : Type}
    (step : ModelState → Batch → ModelState × α × ℚ) :
    ∀ (loader : List Batch) (model : ModelState) (warns : List String)
      (acc : MeanOnline) (mstate : ModelState),
      mstate ∈ batch_states step model loader →
      ∀ (name : String) (t : Tensor), (name, t) ∈ mstate.params →
      t.hasNan = true →
      ("NaN parameters in " ++ name) ∈ (train_epoch step (model, warns, acc) loader).2.1 := by
  intro loader
  induction loader with
  | nil =>
    intro model warns acc mstate hm
    simp [batch_states] at hm
  | cons b rest ih =>
    intro model warns acc mstate hm name t hp hn
    simp only [batch_states, List.mem_cons] at hm
    show ("NaN parameters in " ++ name) ∈
      (train_epoch step ((step model b).1,
        warns ++ nan_warnings (step model b).1.params,
        acc.update (step model b).2.2) rest).2.1
    cases hm with
    | inl he =>
      rw [he] at hp
      exact train_epoch_warns_mono step rest _ _ _ _
        (List.mem_append.2 (Or.inr (mem_nan_warnings _ _ _ hp hn)))
    | inr hrest =>
      exact ih _ _ _ mstate hrest name t hp hn

/-- A train_batch stub that leaves one parameter holding NaN. -/
def c4_nan_step : ModelState → Batch → ModelState × Unit × ℚ :=
  fun m _ => ({ m with params := [("w", { shape := [1], data := [Val.nan] })] }, (), 0)

/-- Witness for the amended C4 at a concrete epoch whose single batch
leaves parameter "w" with a NaN value. -/
theorem C4_nan_warning_witness :
    ("NaN parameters in " ++ "w") ∈
      (train_epoch c4_nan_step (sampleModel, [], { count := 0, mean := 0 })
        [([sampleImage], [Val.num 0])]).2.1 :=
  C4_nan_warning c4_nan_step [([sampleImage], [Val.num 0])] sampleModel []
    { count := 0, mean := 0 }
    { mode := Mode.train, params := [("w", { shape := [1], data := [Val.nan] })] }
    (by decide) "w" { shape := [1], data := [Val.nan] } (by decide) rfl

end EmbedderSDR
